import Mathlib

/-!
Verification of the training-data vector store of `sqlvana`
(`src/sqlvana/qdrant/qdrant.py`, class `Qdrant_VectorStore`).

The Python module is shallowly embedded: pure helpers become Lean
functions on `String`/`List`, the store's three collections become an
explicit record of optional point lists, fallible Python code (raised
exceptions, `pandas` construction errors) returns `Except PyErr`, and
the unbounded pagination `while` loop becomes a fuel-indexed recursion
whose `none` result models running out of fuel (non-termination is
modelled as failure at every fuel).
-/

namespace Sqlvana

/-- Python exceptions that the embedded code can raise. -/
inductive PyErr
  | typeError
  | valueError
  | keyError
  deriving DecidableEq, Repr

/-- A stored qdrant point: a native id plus a payload of named text
fields (e.g. `{"question": ..., "sql": ...}`), looked up by key. -/
structure Point where
  id : String
  payload : List (String × String)
  deriving DecidableEq, Repr

/-- The `ID_SUFFIXES` dict of `qdrant.py` (lines 15-19), in insertion
order: collection name ↦ opaque-id suffix. -/
def ID_SUFFIXES : List (String × String) :=
  [("ddl", "ddl"), ("documentation", "doc"), ("sql", "sql")]

/-- The three collection names, i.e. `ID_SUFFIXES.keys()`. -/
def collection_names : List String := ID_SUFFIXES.map Prod.fst

/-- Embedding of `_format_point_id` (lines 316-317):
`"{0}-{1}".format(id, ID_SUFFIXES[collection_name])`. The dict subscript
raises `KeyError` on an unknown collection name, modelled as `none`;
every call site passes one of the three known names. -/
def format_point_id (id : String) (collection_name : String) : Option String :=
  (ID_SUFFIXES.lookup collection_name).map (fun suffix => id ++ "-" ++ suffix)

/-- Embedding of Python `s.rsplit(sep, 1)` followed by 2-tuple
unpacking, on a list of characters: splits at the LAST occurrence of
`sep`; `none` models the `ValueError` raised by unpacking when `sep`
does not occur. -/
def rsplit1 (sep : Char) : List Char → Option (List Char × List Char)
  | [] => none
  | c :: rest =>
    match rsplit1 sep rest with
    | some (a, b) => some (c :: a, b)
    | none => if c == sep then some ([], rest) else none

/-- Embedding of `id.rsplit("-", 1)` with unpacking into
`(id, suffix)`, on strings; the separator is the dash character. -/
def rsplitDash (s : String) : Option (String × String) :=
  (rsplit1 (Char.ofNat 45) s.toList).map
    (fun p => (String.mk p.1, String.mk p.2))

/-- Model of the comparison `type == suffix` on line 322 of `qdrant.py`:
`type` is the Python BUILTIN CLASS (the loop variable was meant to be
the parsed suffix), and a class object never compares equal to a `str`,
so the comparison is `False` for every suffix. -/
def pyTypeEqStr (_suffix : String) : Bool := false

/-- Embedding of the `for collection_name, suffix in ID_SUFFIXES.items()`
loop of `_parse_point_id` (lines 321-323): returns the first entry whose
suffix satisfies the (broken) comparison, paired with the native id. -/
def parse_point_id_loop (native : String) :
    List (String × String) → Option (String × String)
  | [] => none
  | (collection_name, suffix) :: rest =>
    if pyTypeEqStr suffix then some (native, collection_name)
    else parse_point_id_loop native rest

/-- Embedding of `_parse_point_id` (lines 319-324): rsplit on the last
dash, then scan `ID_SUFFIXES`; `none` models the `ValueError` raised
when the loop falls through (and also the unpacking `ValueError` when
there is no dash). -/
def parse_point_id (id : String) : Option (String × String) :=
  match rsplitDash id with
  | none => none
  | some (native, _sfx) => parse_point_id_loop native ID_SUFFIXES

/-! Store state -/

/-- Vector parameters a collection was created with
(`models.VectorParams(size=..., distance=...)`). The distance metric is
kept as its name (e.g. `"Cosine"` for `models.Distance.COSINE`). -/
structure VectorParams where
  size : Nat
  distance : String
  deriving DecidableEq, Repr

/-- One qdrant collection: its creation parameters and stored points. -/
structure Collection where
  params : VectorParams
  points : List Point
  deriving DecidableEq, Repr

/-- The backend state seen by `Qdrant_VectorStore`: the three
collections, `none` when a collection does not exist. -/
structure StoreState where
  sql : Option Collection
  ddl : Option Collection
  documentation : Option Collection
  deriving DecidableEq, Repr

/-- The subset of the `config` dict the claims depend on:
`n_results` and `distance_metric`, both optional. -/
structure Config where
  n_results : Option Nat
  distance_metric : Option String
  deriving DecidableEq, Repr

/-- Embedding of `self.n_results = config.get("n_results", 10)`
(line 74). -/
def Config.nResults (cfg : Config) : Nat := cfg.n_results.getD 10

/-- Embedding of
`self.distance_metric = config.get("distance_metric", models.Distance.COSINE)`
(line 77). -/
def Config.distanceMetric (cfg : Config) : String :=
  cfg.distance_metric.getD "Cosine"

/-- Collection lookup by name in the store state. Unknown names give
`none` (no call site uses one). -/
def getColl (name : String) (s : StoreState) : Option Collection :=
  if name == "sql" then s.sql
  else if name == "ddl" then s.ddl
  else if name == "documentation" then s.documentation
  else none

/-- Payload field access `data.payload[key]`; `KeyError` when absent. -/
def payloadGet (key : String) (p : Point) : Except PyErr String :=
  match p.payload.lookup key with
  | some v => .ok v
  | none => .error .keyError

/-- Qdrant upsert semantics: insert-or-replace the point by its id. -/
def upsertPoint (points : List Point) (p : Point) : List Point :=
  if points.any (fun q => q.id == p.id) then
    points.map (fun q => if q.id == p.id then p else q)
  else points ++ [p]

/-- Embedding of `self._client.upsert(name, points=[p])` on the store
state; leaves a missing collection missing (the constructor guarantees
existence, so no call site hits that case). -/
def clientUpsert (name : String) (p : Point) (s : StoreState) : StoreState :=
  if name == "sql" then
    { s with sql := s.sql.map (fun c => { c with points := upsertPoint c.points p }) }
  else if name == "ddl" then
    { s with ddl := s.ddl.map (fun c => { c with points := upsertPoint c.points p }) }
  else if name == "documentation" then
    { s with documentation := s.documentation.map (fun c => { c with points := upsertPoint c.points p }) }
  else s

/-- Embedding of `self._client.delete(name, points_selector=[id])`:
delete-if-present by id; absent ids are not an error. -/
def clientDelete (name : String) (id : String) (s : StoreState) : StoreState :=
  if name == "sql" then
    { s with sql := s.sql.map (fun c => { c with points := c.points.filter (fun q => q.id != id) }) }
  else if name == "ddl" then
    { s with ddl := s.ddl.map (fun c => { c with points := c.points.filter (fun q => q.id != id) }) }
  else if name == "documentation" then
    { s with documentation := s.documentation.map (fun c => { c with points := c.points.filter (fun q => q.id != id) }) }
  else s

/-! add_question_sql (C2) -/

/-- Model of the Python BUILTIN `format(value, format_spec)` as called
on line 82. It accepts a value and at most one format spec; called with
extra positional arguments it raises `TypeError`. (A one-argument call,
or a call with an empty spec, returns the string unchanged; no call in
this module reaches the one-spec branch.) -/
def builtinFormat (value : String) (args : List String) : Except PyErr String :=
  match args with
  | [] => .ok value
  | [_spec] => .ok value
  | _ => .error .typeError

/-- Modelled from the spec: `deterministic_uuid` lives in
`src/sqlvana/utils.py`, which is not among the sources; §3 of the spec
says only that identity is a "deterministic hash" of the content, so any
fixed function of the content is a faithful model (the digest algorithm
is irrelevant to every claim; `add_question_sql` errors before it runs). -/
def deterministic_uuid (content : String) : String :=
  toString (content.toList.foldl (fun acc c => acc * 31 + c.toNat) 7)

/-- Embedding of `add_question_sql` (lines 81-99). Line 82 is
`format("Question: {0}\n\nSQL: {1}", question, sql)` — the BUILTIN
`format` with three arguments, not `str.format` — so the call raises
`TypeError` before anything else happens. The rest of the body is
embedded as written for the (unreachable) success path. -/
def add_question_sql (question sql : String) (s : StoreState) :
    Except PyErr (String × StoreState) := do
  let question_answer ← builtinFormat "Question: {0}\n\nSQL: {1}" [question, sql]
  let id := deterministic_uuid question_answer
  let s2 := clientUpsert "sql"
    { id := id, payload := [("question", question), ("sql", sql)] } s
  match format_point_id id "sql" with
  | some oid => .ok (oid, s2)
  | none => .error .keyError

/-! remove_training_data (C4) -/

/-- Embedding of `remove_training_data` (lines 198-203). The `try`
block parses the id (its `ValueError` is caught, returning `False`,
modelled `some false`) and deletes the point; the success path then
FALLS OFF THE END of the function, returning Python `None`, modelled as
`none`. -/
def remove_training_data (id : String) (s : StoreState) :
    Option Bool × StoreState :=
  match parse_point_id id with
  | none => (some false, s)
  | some (native, collection_name) => (none, clientDelete collection_name native s)

/-! get_training_data (C3, C5) -/

/-- Wrapper for `_format_point_id` at a call site that passes a known
collection name: the `KeyError` case of the dict subscript becomes
`Except`. -/
def formatKnown (id name : String) : Except PyErr String :=
  match format_point_id id name with
  | some v => .ok v
  | none => .error .keyError

/-- One row of the training-data table, with the column schema
`{id, question (nullable), content, training_data_type}`. -/
structure Row where
  id : String
  question : Option String
  content : String
  training_data_type : String
  deriving DecidableEq, Repr

/-- Rows of a column-wise `pandas` frame: zip the three columns
(truncating; only reached when the lengths agree). -/
def zipRows (ty : String) :
    List String → List (Option String) → List String → List Row
  | i :: is, q :: qs, c :: cs => ⟨i, q, c, ty⟩ :: zipRows ty is qs cs
  | _, _, _ => []

/-- Embedding of `pd.DataFrame({"id": ids, "question": qs, "content": cs})`
followed by the `training_data_type` column assignment: `pandas` raises
`ValueError` ("All arrays must be of the same length") when the columns
differ in length. -/
def pdDataFrame (ty : String) (ids : List String) (qs : List (Option String))
    (cs : List String) : Except PyErr (List Row) :=
  if ids.length == qs.length && qs.length == cs.length then
    .ok (zipRows ty ids qs cs)
  else .error .valueError

/-- Embedding of `get_training_data` (lines 135-196), as a function of
the three full collection listings (`self._get_all_points(...)` per
collection). The walrus conditions keep each block skipped exactly when
its listing is empty. NOTE the line-160 bug is embedded as written: the
ddl block's `id_list` comprehension iterates over `sql_data`, not
`ddl_data`. Line 175 (`doc_data = self.documentation_collection.get()`)
binds a value the walrus on line 177 immediately overwrites; whether
that attribute exists is decided by the base class outside the sources,
so the line is embedded as having no effect on the result. -/
def get_training_data (sql_data ddl_data doc_data : List Point) :
    Except PyErr (List Row) := do
  let df : List Row := []
  let df ←
    if sql_data.isEmpty then pure df else do
      let question_list ← sql_data.mapM (payloadGet "question")
      let sql_list ← sql_data.mapM (payloadGet "sql")
      let id_list ← sql_data.mapM (fun d => formatKnown d.id "sql")
      let df_sql ← pdDataFrame "sql" id_list (question_list.map some) sql_list
      pure (df ++ df_sql)
  let df ←
    if ddl_data.isEmpty then pure df else do
      let ddl_list ← ddl_data.mapM (payloadGet "ddl")
      let id_list ← sql_data.mapM (fun d => formatKnown d.id "ddl")
      let df_ddl ← pdDataFrame "ddl" id_list (ddl_list.map (fun _ => none)) ddl_list
      pure (df ++ df_ddl)
  let df ←
    if doc_data.isEmpty then pure df else do
      let document_list ← doc_data.mapM (payloadGet "documentation")
      let id_list ← doc_data.mapM (fun d => formatKnown d.id "documentation")
      let df_doc ← pdDataFrame "documentation" id_list
        (document_list.map (fun _ => none)) document_list
      pure (df ++ df_doc)
  return df

/-! _setup_collections and remove_collection (C7, C10) -/

/-- Embedding of `embeddings_dimension` (lines 222-224): probe the
embedding provider once with the fixed string `"ABCDEF"` and measure the
vector length. The provider `emb` abstracts `generate_embedding`. -/
def embeddings_dimension (emb : String → List Int) : Nat :=
  (emb "ABCDEF").length

/-- One `if not collection_exists: create_collection(...)` block of
`_setup_collections`: create the collection, empty, with
`VectorParams(size=embeddings_dimension, distance=self.distance_metric)`
exactly when it is missing. -/
def ensureColl (emb : String → List Int) (cfg : Config)
    (oc : Option Collection) : Option Collection :=
  match oc with
  | some c => some c
  | Option.none =>
    some { params := { size := embeddings_dimension emb,
                       distance := cfg.distanceMetric },
           points := [] }

/-- Embedding of `_setup_collections` (lines 286-314): ensure each of
the three collections exists. -/
def setup_collections (emb : String → List Int) (cfg : Config)
    (s : StoreState) : StoreState :=
  { sql := ensureColl emb cfg s.sql,
    ddl := ensureColl emb cfg s.ddl,
    documentation := ensureColl emb cfg s.documentation }

/-- Embedding of `self._client.delete_collection(name)`: drop the named
collection. -/
def delete_collection (name : String) (s : StoreState) : StoreState :=
  if name == "sql" then { s with sql := Option.none }
  else if name == "ddl" then { s with ddl := Option.none }
  else if name == "documentation" then { s with documentation := Option.none }
  else s

/-- Embedding of `remove_collection` (lines 205-220): for a known
collection name, drop it, re-run `_setup_collections`, and return
`True`; otherwise return `False` with no side effect. -/
def remove_collection (emb : String → List Int) (cfg : Config)
    (collection_name : String) (s : StoreState) : Bool × StoreState :=
  if collection_name ∈ collection_names then
    (true, setup_collections emb cfg (delete_collection collection_name s))
  else (false, s)

/-- All three collections exist (the invariant the constructor
establishes by calling `_setup_collections`, line 79). -/
def allExist (s : StoreState) : Prop :=
  s.sql.isSome = true ∧ s.ddl.isSome = true ∧ s.documentation.isSome = true

/-! _get_all_points (C6, C9) -/

/-- Page size of the scroll loop (`SCROLL_SIZE`, line 13). -/
def SCROLL_SIZE : Nat := 1000

/-- Continuation cursor returned by `self._client.scroll`: Python `None`,
a REST point id, or a gRPC `PointId` with numeric and uuid fields. -/
inductive ScrollOffset
  | pyNone
  | point (pid : String)
  | grpcId (num : Nat) (uuid : String)
  deriving DecidableEq, Repr

/-- Embedding of the stop condition on lines 276-280:
`next_offset is None or (isinstance(next_offset, grpc.PointId) and
next_offset.num == 0 and next_offset.uuid == "")`. -/
def stop_scrolling : ScrollOffset → Bool
  | .pyNone => true
  | .point _ => false
  | .grpcId num uuid => num == 0 && uuid == ""

/-- Embedding of the `while not stop_scrolling` loop of
`_get_all_points` (lines 268-282). `backend i` is the backend's reply
(records, next cursor) to the i-th scroll call; the Python loop has no
iteration cap of its own, so the recursion is indexed by fuel and
returns `none` when the fuel runs out before a sentinel appears. -/
def scrollLoop {α : Type} (backend : Nat → List α × ScrollOffset) :
    Nat → Nat → List α → Option (List α)
  | 0, _, _ => Option.none
  | fuel + 1, i, results =>
    let reply := backend i
    let results2 := results ++ reply.1
    if stop_scrolling reply.2 then some results2
    else scrollLoop backend fuel (i + 1) results2

/-- Embedding of `_get_all_points` (lines 264-284): run the scroll loop
from the first call with an empty accumulator. -/
def get_all_points {α : Type} (fuel : Nat)
    (backend : Nat → List α × ScrollOffset) : Option (List α) :=
  scrollLoop backend fuel 0 []

/-! Retrieval facade (C8) -/

/-- Model of `self._client.search(name, query_vector=..., limit=...)`:
qdrant returns at most `limit` points, the best-scoring prefix of the
backend's similarity ranking `ranked` for the query (the ranking itself
is backend-side and abstracted as an input). -/
def client_search (ranked : List Point) (limit : Nat) : List Point :=
  ranked.take limit

/-- Embedding of `get_similar_question_sql` (lines 226-234): search the
sql collection with `limit=self.n_results` and return the payload dicts. -/
def get_similar_question_sql (cfg : Config) (ranked : List Point) :
    List (List (String × String)) :=
  (client_search ranked cfg.nResults).map Point.payload

/-- Embedding of `get_related_ddl` (lines 236-244): search the ddl
collection with `limit=self.n_results`, projecting the `"ddl"` field. -/
def get_related_ddl (cfg : Config) (ranked : List Point) :
    Except PyErr (List String) :=
  (client_search ranked cfg.nResults).mapM (payloadGet "ddl")

/-- Embedding of `get_related_documentation` (lines 246-254): search the
documentation collection with `limit=self.n_results`, projecting the
`"documentation"` field. -/
def get_related_documentation (cfg : Config) (ranked : List Point) :
    Except PyErr (List String) :=
  (client_search ranked cfg.nResults).mapM (payloadGet "documentation")

/-- Length of a fallible list result; errors count as zero. -/
def exceptLength {ε α : Type} : Except ε (List α) → Nat
  | .ok l => l.length
  | .error _ => 0

/-! Concrete data used by the witnesses -/

/-- Concrete embedding provider used by witnesses: every text maps to a
fixed two-dimensional vector. -/
def embW : String → List Int := fun _ => [1, 2]

/-- Concrete config used by witnesses: everything defaulted. -/
def cfgW : Config := { n_results := Option.none, distance_metric := Option.none }

/-- Concrete well-formed store used by witnesses: all three collections
exist; sql and ddl each hold one point. -/
def sW : StoreState :=
  { sql := some { params := { size := 2, distance := "Cosine" },
                  points := [{ id := "a", payload := [("question", "q"), ("sql", "select 1")] }] },
    ddl := some { params := { size := 2, distance := "Cosine" },
                  points := [{ id := "b", payload := [("ddl", "create table t")] }] },
    documentation := some { params := { size := 2, distance := "Cosine" }, points := [] } }

/-- Concrete store with a missing sql collection, used by the C10
witness to exercise recreation of a collection other than the one
dropped. -/
def sW2 : StoreState :=
  { sql := Option.none,
    ddl := some { params := { size := 2, distance := "Cosine" },
                  points := [{ id := "b", payload := [("ddl", "create table t")] }] },
    documentation := some { params := { size := 2, distance := "Cosine" }, points := [] } }

/-- Concrete three-page backend used by the C6 witness: the first page
is EMPTY with a non-sentinel cursor, the second carries a non-zero gRPC
cursor, the third returns the `None` sentinel. -/
def backendW : Nat → List Nat × ScrollOffset := fun i =>
  if i = 0 then ([], ScrollOffset.point "next")
  else if i = 1 then ([1, 2], ScrollOffset.grpcId 7 "u")
  else ([3], ScrollOffset.pyNone)

/-! Helper lemmas -/

theorem parse_point_id_loop_none (native : String)
    (l : List (String × String)) : parse_point_id_loop native l = none := by
  induction l with
  | nil => rfl
  | cons hd tl ih => simpa [parse_point_id_loop, pyTypeEqStr] using ih

/-- The embedded `_parse_point_id` raises `ValueError` on EVERY input:
the suffix comparison on line 322 tests the builtin `type` instead of
the parsed suffix, so the loop never matches. -/
theorem parse_point_id_eq_none (id : String) : parse_point_id id = none := by
  unfold parse_point_id
  cases h : rsplitDash id with
  | none => rfl
  | some p => exact parse_point_id_loop_none p.1 ID_SUFFIXES

theorem ensureColl_isSome (emb : String → List Int) (cfg : Config)
    (oc : Option Collection) : (ensureColl emb cfg oc).isSome = true := by
  cases oc <;> rfl

theorem scrollLoop_reaches_sentinel {α : Type} (backend : Nat → List α × ScrollOffset) :
    ∀ (d fuel i : Nat) (acc : List α), d < fuel →
      stop_scrolling (backend (i + d)).2 = true →
      (∀ j, i ≤ j → j < i + d → stop_scrolling (backend j).2 = false) →
      scrollLoop backend fuel i acc =
        some (acc ++ ((List.range' i (d + 1)).map (fun n => (backend n).1)).flatten) := by
  intro d
  induction d with
  | zero =>
    intro fuel i acc hf hstop _
    match fuel, hf with
    | fuel + 1, _ =>
      rw [Nat.add_zero] at hstop
      simp [scrollLoop, hstop, List.range'_succ]
  | succ d ih =>
    intro fuel i acc hf hstop hmin
    match fuel, hf with
    | fuel + 1, hf =>
      have hi : stop_scrolling (backend i).2 = false :=
        hmin i (Nat.le_refl i) (by omega)
      simp only [scrollLoop, hi]
      rw [ih fuel (i + 1) (acc ++ (backend i).1) (by omega)
        (by rw [show i + 1 + d = i + (d + 1) by omega]; exact hstop)
        (fun j hj1 hj2 => hmin j (by omega) (by omega))]
      simp [List.range'_succ, List.append_assoc]

theorem scrollLoop_none_of_no_sentinel {α : Type}
    (backend : Nat → List α × ScrollOffset)
    (h : ∀ i, stop_scrolling (backend i).2 = false) :
    ∀ fuel i acc, scrollLoop backend fuel i acc = Option.none := by
  intro fuel
  induction fuel with
  | zero => intro i acc; rfl
  | succ f ih =>
    intro i acc
    simp [scrollLoop, h i]
    exact ih (i + 1) _

theorem mapM_exceptLength_le {ε α β : Type} (f : α → Except ε β) (l : List α) :
    exceptLength (l.mapM f) ≤ l.length := by
  induction l with
  | nil => exact Nat.le_refl _
  | cons a t ih =>
    rw [List.mapM_cons]
    cases hfa : f a with
    | error e =>
      exact Nat.zero_le _
    | ok b =>
      cases ht : t.mapM f with
      | error e =>
        exact Nat.zero_le _
      | ok bs =>
        have hlen : bs.length ≤ t.length := by
          have h2 := ih
          rw [ht] at h2
          simpa [exceptLength] using h2
        show (b :: bs).length ≤ (a :: t).length
        simpa using Nat.succ_le_succ hlen

/-! Claim theorems -/

/-- C1: the claimed codec round trip `decode (encode N kind) = (N, kind)`
fails on the code: encoding `("abc", "sql")` yields the opaque id
`"abc-sql"`, but `_parse_point_id` rejects it (raises `ValueError`)
instead of returning `("abc", "sql")`, because line 322 compares the
Python builtin `type` — not the parsed suffix — against the known
suffixes. (The second half of the claim, that unknown suffixes fail, is
satisfied only because every input fails.) -/
theorem c1_roundtrip_fails_on_code :
    format_point_id "abc" "sql" = some "abc-sql" ∧
      parse_point_id "abc-sql" = none := by
  exact ⟨rfl, parse_point_id_eq_none "abc-sql"⟩

/-- C2: `add_question_sql` never stores anything or returns an id: the
builtin `format` is called with three positional arguments (line 82
should have been `"...".format(question, sql)`), which raises
`TypeError` for every question/sql pair, contradicting the claimed
hash-identity and idempotent-write behaviour. -/
theorem c2_add_question_sql_raises (question sql : String) (s : StoreState) :
    add_question_sql question sql s = .error .typeError := by
  rfl

/-- C3: a ddl row can mix fields from two collections. With one SQL
artifact of native id `"a"` and one DDL artifact of native id `"b"`, the
ddl row carries the content of artifact `"b"` but the id `"a-ddl"` —
the opaque encoding of the SQL artifact's native id (line 160 iterates
over `sql_data`) — where the claim requires `"b-ddl"`. -/
theorem c3_ddl_row_mixes_collections :
    get_training_data
        [{ id := "a", payload := [("question", "q"), ("sql", "select 1")] }]
        [{ id := "b", payload := [("ddl", "create table t")] }] [] =
      .ok [{ id := "a-sql", question := some "q", content := "select 1",
              training_data_type := "sql" },
           { id := "a-ddl", question := none, content := "create table t",
              training_data_type := "ddl" }] := by
  rfl

/-- C4: `remove_training_data` never returns `True`: `_parse_point_id`
raises `ValueError` on every input (see C1), so even the well-formed id
`"abc-sql"` takes the `except` branch — the function returns `False` and
deletes nothing, for every store state. (Were decoding fixed, the
success path would still return `None`, not `True`: line 201 is not
followed by `return True`.) -/
theorem c4_remove_never_true (id : String) (s : StoreState) :
    remove_training_data id s = (some false, s) := by
  unfold remove_training_data
  rw [parse_point_id_eq_none]

/-- C5: an empty collection does not merely contribute zero rows. When
the sql collection is empty and the ddl collection holds one artifact,
the ddl block builds its `id_list` from the EMPTY `sql_data` (line 160),
so `pd.DataFrame` is given columns of lengths 0 and 1 and raises
`ValueError` instead of returning a one-row table. -/
theorem c5_empty_sql_nonempty_ddl_raises :
    get_training_data [] [{ id := "b", payload := [("ddl", "create table t")] }] [] =
      .error .valueError := by
  rfl

/-- C6: `_get_all_points` is exhaustive. If the backend's cursor
sequence first signals no-more-data on the k-th scroll call (a `None`
cursor or the zero gRPC point id), the loop returns exactly the
concatenation, in order, of all k+1 pages — so every stored artifact
appears, once per its occurrences in the backend's pages — and it stops
only on that sentinel: pages before it, empty or not, never end the
loop. -/
theorem c6_get_all_points_exhaustive {α : Type}
    (backend : Nat → List α × ScrollOffset) (k fuel : Nat)
    (hk : stop_scrolling (backend k).2 = true)
    (hmin : ∀ j, j < k → stop_scrolling (backend j).2 = false)
    (hf : k < fuel) :
    get_all_points fuel backend =
      some (((List.range (k + 1)).map (fun i => (backend i).1)).flatten) := by
  have h := scrollLoop_reaches_sentinel backend k fuel 0 [] hf
    (by simpa using hk) (fun j _ hj => hmin j (by omega))
  simpa [get_all_points, List.range_eq_range'] using h

/-- C6 witness: a three-page backend whose first page is empty with a
non-sentinel cursor and whose second cursor is a non-zero gRPC id: the
loop returns all three pages concatenated, stopping only at the `None`
sentinel of the third call. -/
theorem c6_witness :
    stop_scrolling (backendW 2).2 = true ∧ (2 : Nat) < 4 ∧
      get_all_points 4 backendW = some [1, 2, 3] := by
  refine ⟨by decide, by decide, ?_⟩
  have h := c6_get_all_points_exhaustive backendW 2 4 (by decide) (by decide)
    (by decide)
  rw [h]
  rfl

/-- C7: `remove_collection` on a name outside the three known kinds
returns `False` and leaves the state untouched; on a known kind it
returns `True`, leaves that kind's collection existing but empty, and —
given the constructor invariant that all three collections exist —
leaves each of the other two collections exactly as it was. -/
theorem c7_remove_collection_resets (emb : String → List Int) (cfg : Config)
    (name : String) (s : StoreState) (hwf : allExist s) :
    (name ∉ collection_names → remove_collection emb cfg name s = (false, s)) ∧
    (name ∈ collection_names →
      (remove_collection emb cfg name s).1 = true ∧
      (getColl name (remove_collection emb cfg name s).2).map Collection.points =
        some [] ∧
      (name ≠ "sql" → (remove_collection emb cfg name s).2.sql = s.sql) ∧
      (name ≠ "ddl" → (remove_collection emb cfg name s).2.ddl = s.ddl) ∧
      (name ≠ "documentation" →
        (remove_collection emb cfg name s).2.documentation = s.documentation)) := by
  obtain ⟨h1, h2, h3⟩ := hwf
  obtain ⟨cs, hcs⟩ := Option.isSome_iff_exists.mp h1
  obtain ⟨cd, hcd⟩ := Option.isSome_iff_exists.mp h2
  obtain ⟨cc, hcc⟩ := Option.isSome_iff_exists.mp h3
  constructor
  · intro hnot
    simp [remove_collection, hnot]
  · intro hmem
    have hcases : name = "ddl" ∨ name = "documentation" ∨ name = "sql" := by
      simpa [collection_names, ID_SUFFIXES] using hmem
    rcases hcases with h | h | h <;> subst h <;>
      refine ⟨?_, ?_, ?_, ?_, ?_⟩ <;>
      simp +decide [remove_collection, collection_names, ID_SUFFIXES,
        setup_collections, delete_collection, ensureColl, getColl, hcs, hcd, hcc]

/-- C7 witness: resetting the ddl collection of a concrete well-formed
store returns `True`, empties only ddl, and leaves sql and
documentation as they were; an unknown name would be rejected. -/
theorem c7_witness :
    ("ddl" ∉ collection_names →
      remove_collection embW cfgW "ddl" sW = (false, sW)) ∧
    ("ddl" ∈ collection_names →
      (remove_collection embW cfgW "ddl" sW).1 = true ∧
      (getColl "ddl" (remove_collection embW cfgW "ddl" sW).2).map Collection.points =
        some [] ∧
      ("ddl" ≠ "sql" → (remove_collection embW cfgW "ddl" sW).2.sql = sW.sql) ∧
      ("ddl" ≠ "ddl" → (remove_collection embW cfgW "ddl" sW).2.ddl = sW.ddl) ∧
      ("ddl" ≠ "documentation" →
        (remove_collection embW cfgW "ddl" sW).2.documentation = sW.documentation)) :=
  c7_remove_collection_resets embW cfgW "ddl" sW ⟨rfl, rfl, rfl⟩

/-- C8: each of the three retrieval operations passes the store-wide
`self.n_results` — `config.get("n_results", 10)`, so 10 when the config
omits it — as the backend search limit, and hence returns at most that
many results; none of them takes a per-call limit. -/
theorem c8_top_k_store_wide (cfg : Config) (ranked : List Point) :
    (get_similar_question_sql cfg ranked).length ≤ cfg.nResults ∧
    exceptLength (get_related_ddl cfg ranked) ≤ cfg.nResults ∧
    exceptLength (get_related_documentation cfg ranked) ≤ cfg.nResults ∧
    Config.nResults { n_results := Option.none, distance_metric := cfg.distance_metric } = 10 := by
  refine ⟨?_, ?_, ?_, rfl⟩
  · have h : ((client_search ranked cfg.nResults).map Point.payload).length ≤
        cfg.nResults := by
      rw [List.length_map]
      exact List.length_take_le _ _
    exact h
  · exact Nat.le_trans (mapM_exceptLength_le _ _) (List.length_take_le _ _)
  · exact Nat.le_trans (mapM_exceptLength_le _ _) (List.length_take_le _ _)

/-- C9: the scroll loop of `_get_all_points` has no iteration cap of its
own — it terminates (succeeds at some fuel) exactly when the backend's
cursor sequence eventually yields the no-more-data sentinel, so against
a backend that never returns the sentinel it never terminates (fails at
every fuel). -/
theorem c9_scroll_terminates_iff_sentinel {α : Type}
    (backend : Nat → List α × ScrollOffset) :
    (∃ fuel r, get_all_points fuel backend = some r) ↔
      (∃ i, stop_scrolling (backend i).2 = true) := by
  constructor
  · rintro ⟨fuel, r, hr⟩
    by_contra hno
    push_neg at hno
    have h : ∀ i, stop_scrolling (backend i).2 = false := by
      intro i
      cases hst : stop_scrolling (backend i).2 with
      | false => rfl
      | true => exact absurd hst (hno i)
    rw [get_all_points, scrollLoop_none_of_no_sentinel backend h fuel 0 []] at hr
    exact Option.noConfusion hr
  · rintro ⟨i, hi⟩
    have hex : ∃ k, stop_scrolling (backend k).2 = true := ⟨i, hi⟩
    have hk := Nat.find_spec hex
    have h := scrollLoop_reaches_sentinel backend (Nat.find hex)
      (Nat.find hex + 1) 0 [] (by omega) (by simpa using hk)
      (fun j _ hj => by
        have hlt : j < Nat.find hex := by omega
        have hne := Nat.find_min hex hlt
        cases hst : stop_scrolling (backend j).2 with
        | false => rfl
        | true => exact absurd hst hne)
    exact ⟨Nat.find hex + 1, _, h⟩

/-- C10: `_setup_collections` establishes that all three collections
exist, and `remove_collection` on a known kind re-establishes it: the
re-run recreates every missing collection (not only the one just
dropped), each created with vector size equal to the probed embedding
dimensionality and the configured distance metric. -/
theorem c10_collections_invariant (emb : String → List Int) (cfg : Config)
    (name : String) (s s0 : StoreState) (h : name ∈ collection_names) :
    allExist (setup_collections emb cfg s0) ∧
    allExist ((remove_collection emb cfg name s).2) ∧
    ((name = "sql" ∨ s.sql = Option.none) →
      (remove_collection emb cfg name s).2.sql =
        some { params := { size := embeddings_dimension emb,
                           distance := cfg.distanceMetric }, points := [] }) ∧
    ((name = "ddl" ∨ s.ddl = Option.none) →
      (remove_collection emb cfg name s).2.ddl =
        some { params := { size := embeddings_dimension emb,
                           distance := cfg.distanceMetric }, points := [] }) ∧
    ((name = "documentation" ∨ s.documentation = Option.none) →
      (remove_collection emb cfg name s).2.documentation =
        some { params := { size := embeddings_dimension emb,
                           distance := cfg.distanceMetric }, points := [] }) := by
  have hcases : name = "ddl" ∨ name = "documentation" ∨ name = "sql" := by
    simpa [collection_names, ID_SUFFIXES] using h
  refine ⟨⟨ensureColl_isSome _ _ _, ensureColl_isSome _ _ _, ensureColl_isSome _ _ _⟩,
    ?_, ?_, ?_, ?_⟩ <;>
    rcases hcases with hn | hn | hn <;> subst hn
  all_goals
    first
    | exact ⟨by
        simp +decide [remove_collection, collection_names, ID_SUFFIXES,
          setup_collections, delete_collection]
        exact ensureColl_isSome _ _ _,
      by
        simp +decide [remove_collection, collection_names, ID_SUFFIXES,
          setup_collections, delete_collection]
        exact ensureColl_isSome _ _ _,
      by
        simp +decide [remove_collection, collection_names, ID_SUFFIXES,
          setup_collections, delete_collection]
        exact ensureColl_isSome _ _ _⟩
    | (intro hd
       rcases hd with hd | hd <;>
         simp_all +decide [remove_collection, collection_names, ID_SUFFIXES,
           setup_collections, delete_collection, ensureColl])

/-- C10 witness: dropping the documentation collection of a store whose
sql collection is missing re-creates both (and keeps ddl existing), each
recreated collection carrying the probed dimensionality and the default
distance metric. -/
theorem c10_witness :
    allExist (setup_collections embW cfgW sW2) ∧
    allExist ((remove_collection embW cfgW "documentation" sW2).2) ∧
    (("documentation" = "sql" ∨ sW2.sql = Option.none) →
      (remove_collection embW cfgW "documentation" sW2).2.sql =
        some { params := { size := embeddings_dimension embW,
                           distance := cfgW.distanceMetric }, points := [] }) ∧
    (("documentation" = "ddl" ∨ sW2.ddl = Option.none) →
      (remove_collection embW cfgW "documentation" sW2).2.ddl =
        some { params := { size := embeddings_dimension embW,
                           distance := cfgW.distanceMetric }, points := [] }) ∧
    (("documentation" = "documentation" ∨ sW2.documentation = Option.none) →
      (remove_collection embW cfgW "documentation" sW2).2.documentation =
        some { params := { size := embeddings_dimension embW,
                           distance := cfgW.distanceMetric }, points := [] }) :=
  c10_collections_invariant embW cfgW "documentation" sW2 sW2
    (by simp [collection_names, ID_SUFFIXES])

end Sqlvana
